import Mathlib

/-!
Shallow embedding of the AskMehdi backend (src/app.py): a FastAPI service
answering questions about a résumé via RAG (chunking, vector retrieval,
remote Groq chat model).  Pure logic of app.py is translated directly;
external libraries (pypdf, the langchain splitter, FAISS, the Groq client)
appear as fallible steps in an `Env` record, with their internal behaviour
modelled from the specification where it matters to a claim.
-/

namespace AskMehdi

/-- Configuration constant, src/app.py line 37. -/
def CHAT_MODEL : String := "meta-llama/llama-4-scout-17b-16e-instruct"

/-- Configuration constant, src/app.py line 38. -/
def EMBED_MODEL : String := "all-MiniLM-L6-v2"

/-- Configuration constant, src/app.py line 39. -/
def CHUNK_SIZE : Nat := 800

/-- Configuration constant, src/app.py line 40. -/
def CHUNK_OVERLAP : Nat := 120

/-- Configuration constant, src/app.py line 41. -/
def TOP_K : Nat := 4

/-- The system prompt of src/app.py lines 44-52, after textwrap.dedent and
str.strip have been applied (the value of the Python constant). -/
def SYSTEM_PROMPT : String :=
  "You are Mehdi\x27s secretary. Be concise and answer using the provided context (profile + docs).\nIf you do not know, say you do not know. Mention the document source name when you can.\nFormat your responses with:\n- Numbered lists for certifications or items\n- Bullet points (*) for skills and experiences\n- Always cite the source at the end (e.g., \x27Source: Profile document\x27)\n- Add context like \x27According to Mehdi\x27s profile...\x27"

/-- The static profile text of src/app.py lines 55-71, after str.strip. -/
def PERSONAL_PROFILE : String :=
  "Name: Mehdi Ben Fredj\nRole: AI Engineering Student\nLocation: Tunis, Tunisie \nEmail: mehdi.benfredj15@gmail.com\nSkills: Python, LangChain, LLMOps, RAG, MLOps, FastAPI, Cloud (AWS/GCP)\nExperience:\n- Built RAG chatbots for personal/portfolio sites.\n- Deployed LLM microservices behind FastAPI with autoscaling.\n- Integrated PDF/TXT ingestion for personal knowledge bases.\n- Build a Personal Portfolio\nEducation:\n- TEK-UP University 2023-2028\nProjects:\n- Personal website chatbot answering from CV and portfolio.\n- PDF QA system with multi-file ingestion."

/-- A langchain Document: page content plus the `source` metadata entry
(the only metadata key this program ever sets).  Chunks produced by the
splitter are Documents as well, src/app.py lines 108, 117, 128. -/
structure Document where
  page_content : String
  source : String
deriving DecidableEq, Repr

/-- A chat message: `SystemMessage` or `HumanMessage`, src/app.py lines 152-155. -/
inductive Message where
  | system (content : String)
  | human (content : String)
deriving DecidableEq, Repr

/-- The remote model response, src/app.py line 158: either an object with a
`content` attribute or anything else, rendered through `str`. -/
inductive LLMResponse where
  | withContent (content : String)
  | other (repr : String)
deriving DecidableEq, Repr

/-- The `response.content if hasattr(response, "content") else str(response)`
step of src/app.py line 158. -/
def LLMResponse.text : LLMResponse → String
  | .withContent c => c
  | .other s => s

/-- The remote chat-model call (`llm.invoke`, src/app.py line 157): it either
returns a response or raises an exception carrying `str(e)`. -/
def LlmFun : Type := List Message → Except String LLMResponse

/-- The retriever call (`retriever.invoke`, src/app.py line 145): it either
returns a list of documents or raises. -/
def Retriever : Type := String → Except String (List Document)

/-- The mutable globals of src/app.py lines 88-90 (`vectorstore` is set but
never read by a handler, so it is not tracked). -/
structure AppState where
  llm : Option LlmFun
  retriever : Option Retriever

/-- Python str.strip with no argument, src/app.py line 173: remove leading
and trailing whitespace characters. -/
def pyStrip (s : String) : String :=
  ((s.toList.dropWhile Char.isWhitespace).reverse.dropWhile
    Char.isWhitespace).reverse.asString

/-- Modelled from the spec (§4.2, hard-cut fallback of the recursive
splitter, a third-party langchain component not in src/): overlapping
character windows of width `size`, each window starting `step` characters
after the previous one, so adjacent windows share `size - step` characters. -/
def charWindows (size step : Nat) (s : String) : List String :=
  if s.length ≤ size then [s]
  else
    (List.range ((s.length - size + step - 1) / step + 1)).map
      (fun i => (((s.toList).drop (i * step)).take size).asString)

/-- Modelled from the spec (§4.2): the boundary hierarchy the recursive
splitter prefers, paragraph then line then word, before a hard character cut. -/
def DEFAULT_SEPARATORS : List String := ["\n\n", "\n", " "]

/-- Modelled from the spec (§4.2, the RecursiveCharacterTextSplitter of
src/app.py lines 124-127 is a third-party langchain component not in src/):
a text no longer than the chunk size is one chunk; a longer text is split at
the preferred boundary and each piece is split recursively with the next
boundary type, falling back to overlapping hard character cuts. -/
def split_text : List String → String → List String
  | seps, s =>
    if s.length ≤ CHUNK_SIZE then [s]
    else
      match seps with
      | [] => charWindows CHUNK_SIZE (CHUNK_SIZE - CHUNK_OVERLAP) s
      | sep :: rest => (s.splitOn sep).flatMap (fun piece => split_text rest piece)

/-- The `splitter.split_documents(all_docs)` call of src/app.py line 128:
each document is split into chunks, and every chunk inherits the parent
document metadata (langchain behaviour, per spec §3: Chunk source is
inherited from the parent Document). -/
def split_documents (docs : List Document) : List Document :=
  docs.flatMap (fun d =>
    (split_text DEFAULT_SEPARATORS d.page_content).map (fun c => ⟨c, d.source⟩))

/-- Modelled from the spec (§4.4, the FAISS similarity search configured at
src/app.py line 134 is a third-party component not in src/): rank the
indexed chunks nearest-first by the distance `dist` (one fixed metric, the
one the index was built with) and return the first `k`. -/
def searchIndex (dist : Document → Nat) (chunks : List Document) (k : Nat) :
    List Document :=
  (chunks.insertionSort (fun a b => dist a ≤ dist b)).take k

/-- The external, fallible collaborators of load_resources, src/app.py
lines 100-135.  `groqInit` is the ChatGroq constructor; `pdfExists` is the
cv_path.exists() test; `pdfRead` is PdfReader plus per-page extract_text
(a page may yield None, modelled as Option); `indexBuild` is the embedding
model load plus FAISS.from_documents, which on success determines the
distance of a chunk text from each query text. -/
structure Env where
  groqInit : Except String LlmFun
  pdfExists : Bool
  pdfRead : Except String (List (Option String))
  indexBuild : Except String (String → String → Nat)

/-- The document-assembly part of load_resources, src/app.py lines 104-121:
always the profile document tagged "profile"; if the PDF exists and reads,
also a document tagged "cv.pdf" whose content joins the per-page text
(None becoming "") with newlines; a PDF read failure is caught, a warning
printed, and the document omitted. -/
def loadDocuments (env : Env) : List Document :=
  let base : List Document := [⟨PERSONAL_PROFILE, "profile"⟩]
  if env.pdfExists then
    match env.pdfRead with
    | .ok pages =>
        base ++ [⟨String.intercalate "\n" (pages.map (fun p => p.getD "")), "cv.pdf"⟩]
    | .error _ => base
  else base

/-- load_resources, src/app.py lines 93-135, as a state transformer: the
first component is `some e` when an exception with message `e` escaped, and
the second is the resulting global state (globals already assigned before
the exception keep their new values).  The LLM global is assigned at line
101, before documents are loaded and the index is built; the retriever is
only assigned at line 134 after everything succeeded, configured with
search_kwargs k = TOP_K over the chunks of the loaded documents. -/
def load_resources (env : Env) (st : AppState) : Option String × AppState :=
  match env.groqInit with
  | .error e => (some e, st)
  | .ok f =>
    let st1 : AppState := { st with llm := some f }
    let chunks := split_documents (loadDocuments env)
    match env.indexBuild with
    | .error e => (some e, st1)
    | .ok dist =>
        (none,
         { st1 with
             retriever := some (fun q =>
               Except.ok (searchIndex (fun d => dist q d.page_content) chunks TOP_K)) })

/-- The module-level startup of src/app.py lines 187-190: run load_resources
from the all-None initial state; any exception is caught and only logged, so
the process keeps the partially assigned globals and keeps serving. -/
def startup (env : Env) : AppState :=
  (load_resources env ⟨none, none⟩).2

/-- The fixed not-initialized message of src/app.py line 141. -/
def NOT_INIT_MSG : String := "Model not initialized. Please restart the server."

/-- The f-string user prompt of src/app.py line 149. -/
def user_prompt (context query : String) : String :=
  "Context from Mehdi\x27s CV:\n" ++ context ++ "\n\nQuestion: " ++ query ++ "\nAnswer:"

/-- generate_answer, src/app.py lines 138-163: not-initialized guard, then a
try block that retrieves documents, joins their contents with blank lines,
sends the two-part prompt to the model, and extracts the answer text; any
exception raised inside the try is caught and rendered as an error string. -/
def generate_answer (st : AppState) (query : String) : String :=
  match st.retriever, st.llm with
  | some retr, some f =>
    match retr query with
    | .error e => "Sorry, I encountered an error: " ++ e
    | .ok docs =>
      let context := String.intercalate "\n\n" (docs.map Document.page_content)
      let messages := [Message.system SYSTEM_PROMPT,
                       Message.human (user_prompt context query)]
      match f messages with
      | .error e => "Sorry, I encountered an error: " ++ e
      | .ok resp => resp.text
  | _, _ => NOT_INIT_MSG

/-- JSON values a /chat request body field can hold.  Nested objects and
arrays are not needed by any claim and are represented opaquely. -/
inductive Json where
  | str (s : String)
  | num (n : Int)
  | bool (b : Bool)
  | null
  | otherJson
deriving DecidableEq, Repr

/-- Outcome of one /chat request, src/app.py lines 171-178: the HTTPException
400 branch, the JSONResponse 200 branch, or an exception escaping the handler
(Python would surface it as a server error, not a chat response). -/
inductive ChatResult where
  | httpError (code : Nat) (detail : String)
  | ok (code : Nat) (response : String) (status : String)
  | pythonError (exnType : String)
deriving DecidableEq, Repr

/-- The /chat handler of src/app.py lines 171-178, parameterized by the
answer function so that its (non-)invocation is observable.  The message is
`payload.get("message", "").strip() if payload else ""`: an empty (falsy)
dict gives "", a missing key gives the default "", and `.strip()` raises
AttributeError when the value is not a string. -/
def chatWith (answer : String → String) (payload : List (String × Json)) :
    ChatResult :=
  let msgVal : Json :=
    if payload.isEmpty then Json.str ""
    else (payload.lookup "message").getD (Json.str "")
  match msgVal with
  | Json.str s =>
    let message := pyStrip s
    if message = "" then ChatResult.httpError 400 "No message provided"
    else ChatResult.ok 200 (answer message) "success"
  | _ => ChatResult.pythonError "AttributeError"

/-- The /chat endpoint, src/app.py lines 171-178, on the global state. -/
def chat (st : AppState) (payload : List (String × Json)) : ChatResult :=
  chatWith (generate_answer st) payload

/-- Discriminates the handler outcomes that produce an HTTP response (the
400 error branch or the 200 JSON branch) from an uncaught exception
escaping the handler. -/
def ChatResult.isHttpResponse : ChatResult → Bool
  | .httpError _ _ => true
  | .ok _ _ _ => true
  | .pythonError _ => false

/-- An environment where the ChatGroq constructor succeeds but the later
embedding-model load / index build raises: src/app.py assigns the llm global
at line 101 before the index is built at lines 132-134, and the module-level
except at lines 187-190 keeps the partial assignment. -/
def envPartialInit : Env :=
  { groqInit := Except.ok (fun _ => Except.ok (LLMResponse.withContent "ok")),
    pdfExists := false,
    pdfRead := Except.ok [],
    indexBuild := Except.error "embedding model load failed" }

/-- The /health response body, src/app.py line 183. -/
structure HealthResponse where
  status : String
  model_loaded : Bool
deriving DecidableEq, Repr

/-- The /health handler, src/app.py lines 181-183: model_loaded is the
Python truthiness test `llm is not None`. -/
def health (st : AppState) : HealthResponse :=
  ⟨"ok", st.llm.isSome⟩

/-- Ready means generate_answer will not take its not-initialized branch:
both globals of src/app.py line 140 are set. -/
def Ready (st : AppState) : Prop :=
  st.retriever.isSome ∧ st.llm.isSome

/-! Helper lemmas shared by several developments. -/

theorem pyStrip_empty : pyStrip "" = "" := by decide

theorem generate_answer_not_ready (st : AppState) (q : String)
    (h : st.retriever = none ∨ st.llm = none) :
    generate_answer st q = NOT_INIT_MSG := by
  rcases st with ⟨l, r⟩
  rcases h with h | h <;> simp only at h <;> subst h
  · cases l <;> rfl
  · cases r <;> rfl

theorem mem_searchIndex (dist : Document → Nat) (chunks : List Document)
    (k : Nat) (d : Document) (hd : d ∈ searchIndex dist chunks k) :
    d ∈ chunks := by
  have h1 : d ∈ chunks.insertionSort (fun a b => dist a ≤ dist b) :=
    List.mem_of_mem_take hd
  exact (List.mem_insertionSort _).mp h1

theorem source_mem_loadDocuments (env : Env) (d : Document)
    (hd : d ∈ loadDocuments env) :
    d.source = "profile" ∨ d.source = "cv.pdf" := by
  unfold loadDocuments at hd
  rcases hp : env.pdfExists <;> rw [hp] at hd
  · simp at hd
    rw [hd]
    exact Or.inl rfl
  · rcases hr : env.pdfRead <;> rw [hr] at hd <;> simp at hd
    · rw [hd]; exact Or.inl rfl
    · rcases hd with hd | hd <;> rw [hd]
      · exact Or.inl rfl
      · exact Or.inr rfl

theorem source_mem_split_documents (docs : List Document) (c : Document)
    (hc : c ∈ split_documents docs) :
    ∃ d ∈ docs, c.source = d.source := by
  unfold split_documents at hc
  simp only [List.mem_flatMap, List.mem_map] at hc
  obtain ⟨d, hd, s, _, hs⟩ := hc
  exact ⟨d, hd, by rw [← hs]⟩

/-! Claim theorems. -/

/-- C4: a POST /chat whose JSON body is the empty object, or whose message
field is missing or the empty string, gets HTTP 400 with detail
"No message provided"; the result is the same for every answer function, so
generate_answer is never invoked on such a request. -/
theorem chat_rejects_empty_message
    (f : String → String) (payload : List (String × Json))
    (h : payload = [] ∨ payload.lookup "message" = none ∨
         payload.lookup "message" = some (Json.str "")) :
    chatWith f payload = ChatResult.httpError 400 "No message provided" := by
  rcases h with h | h | h
  · subst h; rfl
  · cases hp : payload.isEmpty <;>
      simp [chatWith, h, hp, pyStrip_empty]
  · cases hp : payload.isEmpty <;>
      simp [chatWith, h, hp, pyStrip_empty]

/-- Witness for C4 at the empty JSON body. -/
theorem chat_rejects_empty_message_witness :
    chatWith (fun s => s) [] = ChatResult.httpError 400 "No message provided" :=
  chat_rejects_empty_message (fun s => s) [] (Or.inl rfl)

/-- C10: a /chat request whose message field holds a non-string JSON value
(null, or a number) makes the handler call .strip() on that value, raising
an uncaught AttributeError: the request yields neither the HTTP 400 branch
nor a 200 chat response. -/
theorem chat_nonstring_message_raises :
    chat ⟨none, none⟩ [("message", Json.null)] =
      ChatResult.pythonError "AttributeError" ∧
    chat ⟨none, none⟩ [("message", Json.num 5)] =
      ChatResult.pythonError "AttributeError" ∧
    (chat ⟨none, none⟩ [("message", Json.null)]).isHttpResponse = false ∧
    (chat ⟨none, none⟩ [("message", Json.num 5)]).isHttpResponse = false :=
  ⟨rfl, rfl, rfl, rfl⟩

/-- C2: whenever the retriever or the LLM client global is unset,
generate_answer returns the fixed not-initialized message and /chat returns
it with HTTP 200; moreover after a startup whose LLM initialization raised,
the process still serves /chat with that message. -/
theorem chat_not_initialized
    (st : AppState) (q : String) (env : Env) (e : String)
    (h : st.retriever = none ∨ st.llm = none)
    (hstrip : pyStrip q = q) (hne : q ≠ "")
    (henv : env.groqInit = Except.error e) :
    generate_answer st q = NOT_INIT_MSG ∧
    chat st [("message", Json.str q)] =
      ChatResult.ok 200 NOT_INIT_MSG "success" ∧
    chat (startup env) [("message", Json.str q)] =
      ChatResult.ok 200 NOT_INIT_MSG "success" := by
  have hg : generate_answer st q = NOT_INIT_MSG :=
    generate_answer_not_ready st q h
  have hs : startup env = ⟨none, none⟩ := by
    unfold startup load_resources
    rw [henv]
  have hg2 : generate_answer (⟨none, none⟩ : AppState) q = NOT_INIT_MSG :=
    generate_answer_not_ready _ q (Or.inl rfl)
  refine ⟨hg, ?_, ?_⟩
  · simp [chat, chatWith, hstrip, hne, hg]
  · rw [hs]
    simp [chat, chatWith, hstrip, hne, hg2]

/-- Witness for C2: the all-None state and a failing-LLM-init environment. -/
theorem chat_not_initialized_witness :
    generate_answer ⟨none, none⟩ "hi" = NOT_INIT_MSG ∧
    chat ⟨none, none⟩ [("message", Json.str "hi")] =
      ChatResult.ok 200 NOT_INIT_MSG "success" ∧
    chat (startup ⟨Except.error "no api key", false, Except.ok [],
        Except.ok (fun _ _ => 0)⟩) [("message", Json.str "hi")] =
      ChatResult.ok 200 NOT_INIT_MSG "success" :=
  chat_not_initialized ⟨none, none⟩ "hi"
    ⟨Except.error "no api key", false, Except.ok [], Except.ok (fun _ _ => 0)⟩
    "no api key" (Or.inl rfl) (by decide) (by decide) rfl

/-- C1: in the Ready state, when the remote chat-model call raises an
exception e, generate_answer catches it and returns the error-describing
string, and /chat responds HTTP 200 with that string as the response field
(never a 5xx). -/
theorem chat_catches_llm_exception
    (st : AppState) (retr : Retriever) (f : LlmFun) (q e : String)
    (docs : List Document)
    (hr : st.retriever = some retr) (hl : st.llm = some f)
    (hq : retr q = Except.ok docs)
    (hf : f [Message.system SYSTEM_PROMPT,
             Message.human (user_prompt
               (String.intercalate "\n\n" (docs.map Document.page_content)) q)] =
          Except.error e)
    (hstrip : pyStrip q = q) (hne : q ≠ "") :
    generate_answer st q = "Sorry, I encountered an error: " ++ e ∧
    chat st [("message", Json.str q)] =
      ChatResult.ok 200 ("Sorry, I encountered an error: " ++ e) "success" := by
  have hg : generate_answer st q = "Sorry, I encountered an error: " ++ e := by
    rcases st with ⟨l, r⟩
    simp only at hr hl
    subst hr hl
    simp [generate_answer, hq, hf]
  exact ⟨hg, by simp [chat, chatWith, hstrip, hne, hg]⟩

/-- Witness for C1: a state whose model call always raises "boom". -/
theorem chat_catches_llm_exception_witness :
    generate_answer
        ⟨some (fun _ => Except.error "boom"), some (fun _ => Except.ok [])⟩
        "hi" = "Sorry, I encountered an error: boom" ∧
    chat ⟨some (fun _ => Except.error "boom"), some (fun _ => Except.ok [])⟩
        [("message", Json.str "hi")] =
      ChatResult.ok 200 "Sorry, I encountered an error: boom" "success" :=
  chat_catches_llm_exception
    ⟨some (fun _ => Except.error "boom"), some (fun _ => Except.ok [])⟩
    (fun _ => Except.ok []) (fun _ => Except.error "boom") "hi" "boom" []
    rfl rfl rfl rfl (by decide) (by decide)

/-- C3 counterexample: after a startup in which LLM initialization succeeded
but the index build failed, /health reports model_loaded = true although the
system is not Ready (generate_answer still answers with the not-initialized
message), refuting that model_loaded is true exactly when the system is
Ready. -/
theorem health_model_loaded_not_ready :
    health (startup envPartialInit) = ⟨"ok", true⟩ ∧
    ¬ Ready (startup envPartialInit) ∧
    generate_answer (startup envPartialInit) "hi" = NOT_INIT_MSG := by
  refine ⟨rfl, ?_, rfl⟩
  rintro ⟨h1, -⟩
  rw [show (startup envPartialInit).retriever = none from rfl] at h1
  simp at h1

/-- C3 amended: /health always reports status "ok" and model_loaded equal to
whether the LLM client global is set, which holds exactly when the ChatGroq
construction succeeded; a Ready system has model_loaded true, and before any
initialization model_loaded is false — but model_loaded can be true in a
NotReady state when initialization failed after the LLM step. -/
theorem health_reports_llm_init (env : Env) :
    (health (startup env)).status = "ok" ∧
    (health (startup env)).model_loaded = (startup env).llm.isSome ∧
    (startup env).llm.isSome = env.groqInit.isOk ∧
    ((startup env).retriever.isSome → (startup env).llm.isSome) ∧
    health ⟨none, none⟩ = ⟨"ok", false⟩ := by
  refine ⟨rfl, rfl, ?_, ?_, rfl⟩ <;>
    cases hg : env.groqInit <;>
      cases hi : env.indexBuild <;>
        simp [startup, load_resources, health, hg, hi, Except.isOk, Except.toBool]

/-- Witness for C3 amended: on a fully successful environment the retriever
is set, and the amended theorem then yields model_loaded = true. -/
theorem health_reports_llm_init_witness :
    (startup ⟨Except.ok (fun _ => Except.ok (LLMResponse.withContent "ok")),
        false, Except.ok [], Except.ok (fun _ _ => 0)⟩).llm.isSome = true :=
  (health_reports_llm_init
      ⟨Except.ok (fun _ => Except.ok (LLMResponse.withContent "ok")),
        false, Except.ok [], Except.ok (fun _ _ => 0)⟩).2.2.2.1 rfl

/-- C6: a document whose content is shorter than CHUNK_SIZE (800) characters
is split into exactly one chunk whose content (and inherited source) is
identical to the source document. -/
theorem short_document_single_chunk (d : Document)
    (h : d.page_content.length < CHUNK_SIZE) :
    split_documents [d] = [d] := by
  have h1 : split_text DEFAULT_SEPARATORS d.page_content = [d.page_content] := by
    unfold split_text
    rw [if_pos (Nat.le_of_lt h)]
  simp [split_documents, h1]

/-- Witness for C6 at a concrete 14-character document. -/
theorem short_document_single_chunk_witness :
    split_documents [⟨"Short profile.", "profile"⟩] =
      [⟨"Short profile.", "profile"⟩] :=
  short_document_single_chunk ⟨"Short profile.", "profile"⟩ (by decide)

/-- C7: the loader always yields the profile document first; when the PDF
exists and reads, it adds one document tagged "cv.pdf" joining the per-page
text with newlines; when the PDF read raises, only the profile document is
produced; and a PDF failure does not abort startup — with the other steps
succeeding the system still becomes Ready. -/
theorem loader_profile_and_optional_cv
    (env : Env) (pages : List (Option String)) (e : String)
    (f : LlmFun) (dist : String → String → Nat) :
    (loadDocuments env).head? = some ⟨PERSONAL_PROFILE, "profile"⟩ ∧
    (env.pdfExists = true → env.pdfRead = Except.ok pages →
      loadDocuments env =
        [⟨PERSONAL_PROFILE, "profile"⟩,
         ⟨String.intercalate "\n" (pages.map (fun p => p.getD "")), "cv.pdf"⟩]) ∧
    (env.pdfRead = Except.error e → loadDocuments env = [⟨PERSONAL_PROFILE, "profile"⟩]) ∧
    (env.groqInit = Except.ok f → env.indexBuild = Except.ok dist →
      Ready (startup env)) := by
  refine ⟨?_, ?_, ?_, ?_⟩
  · cases hp : env.pdfExists <;> cases hr : env.pdfRead <;>
      simp [loadDocuments, hp, hr]
  · intro hp hr
    simp [loadDocuments, hp, hr]
  · intro hr
    cases hp : env.pdfExists <;> simp [loadDocuments, hp, hr]
  · intro hg hi
    simp [Ready, startup, load_resources, hg, hi]

/-- Witness for C7: a readable two-page PDF, a failing PDF read, and a
Ready startup despite the failing PDF. -/
theorem loader_profile_and_optional_cv_witness :
    loadDocuments ⟨Except.ok (fun _ => Except.ok (LLMResponse.withContent "a")),
        true, Except.ok [some "CV line one", none], Except.ok (fun _ _ => 0)⟩ =
      [⟨PERSONAL_PROFILE, "profile"⟩,
       ⟨String.intercalate "\n"
          ([some "CV line one", none].map (fun p => p.getD "")), "cv.pdf"⟩] ∧
    loadDocuments ⟨Except.ok (fun _ => Except.ok (LLMResponse.withContent "a")),
        true, Except.error "bad pdf", Except.ok (fun _ _ => 0)⟩ =
      [⟨PERSONAL_PROFILE, "profile"⟩] ∧
    Ready (startup ⟨Except.ok (fun _ => Except.ok (LLMResponse.withContent "a")),
        true, Except.error "bad pdf", Except.ok (fun _ _ => 0)⟩) :=
  ⟨(loader_profile_and_optional_cv
      ⟨Except.ok (fun _ => Except.ok (LLMResponse.withContent "a")),
        true, Except.ok [some "CV line one", none], Except.ok (fun _ _ => 0)⟩
      [some "CV line one", none] "" (fun _ => Except.ok (LLMResponse.withContent "a"))
      (fun _ _ => 0)).2.1 rfl rfl,
   (loader_profile_and_optional_cv
      ⟨Except.ok (fun _ => Except.ok (LLMResponse.withContent "a")),
        true, Except.error "bad pdf", Except.ok (fun _ _ => 0)⟩
      [] "bad pdf" (fun _ => Except.ok (LLMResponse.withContent "a"))
      (fun _ _ => 0)).2.2.1 rfl,
   (loader_profile_and_optional_cv
      ⟨Except.ok (fun _ => Except.ok (LLMResponse.withContent "a")),
        true, Except.error "bad pdf", Except.ok (fun _ _ => 0)⟩
      [] "bad pdf" (fun _ => Except.ok (LLMResponse.withContent "a"))
      (fun _ _ => 0)).2.2.2 rfl rfl⟩

/-- C5: the index search configured with k = TOP_K returns exactly
min TOP_K n chunks (so at most 4, and fewer exactly when the corpus holds
fewer than 4), every result comes from the indexed corpus, and results are
ranked nearest-first by the one distance metric the index was built with. -/
theorem search_topk_sorted (dist : Document → Nat) (chunks : List Document) :
    (searchIndex dist chunks TOP_K).length = min TOP_K chunks.length ∧
    (searchIndex dist chunks TOP_K).length ≤ 4 ∧
    List.Sorted (fun a b => dist a ≤ dist b) (searchIndex dist chunks TOP_K) ∧
    ∀ d ∈ searchIndex dist chunks TOP_K, d ∈ chunks := by
  haveI : IsTotal Document (fun a b => dist a ≤ dist b) :=
    ⟨fun a b => Nat.le_total (dist a) (dist b)⟩
  haveI : IsTrans Document (fun a b => dist a ≤ dist b) :=
    ⟨fun _ _ _ h1 h2 => Nat.le_trans h1 h2⟩
  refine ⟨?_, ?_, ?_, fun d hd => mem_searchIndex dist chunks TOP_K d hd⟩
  · simp [searchIndex]
  · simp only [searchIndex, List.length_take, List.length_insertionSort]
    exact le_trans (Nat.min_le_left _ _) (by norm_num [TOP_K])
  · exact List.Pairwise.sublist (List.take_sublist _ _)
      (List.sorted_insertionSort _ chunks)

/-- C9: in the Ready state with a successful retrieval, generate_answer
joins the retrieved chunk contents with blank lines and sends the remote
model exactly the two-part prompt — the fixed system instruction plus one
user message embedding that context and the question — returning the
response text (or the caught-error string). -/
theorem answer_two_part_prompt
    (st : AppState) (retr : Retriever) (f : LlmFun) (q : String)
    (docs : List Document)
    (hr : st.retriever = some retr) (hl : st.llm = some f)
    (hq : retr q = Except.ok docs) :
    generate_answer st q =
      (match f [Message.system SYSTEM_PROMPT,
                Message.human (user_prompt
                  (String.intercalate "\n\n" (docs.map Document.page_content)) q)] with
       | .error e => "Sorry, I encountered an error: " ++ e
       | .ok resp => resp.text) := by
  rcases st with ⟨l, r⟩
  simp only at hr hl
  subst hr hl
  simp only [generate_answer, hq]

/-- Witness for C9: the model sees the prompt built from one retrieved chunk
and answers with its content field. -/
theorem answer_two_part_prompt_witness :
    generate_answer
        ⟨some (fun _ => Except.ok (LLMResponse.withContent "ANSWER")),
         some (fun _ => Except.ok [⟨"ctx", "profile"⟩])⟩ "what" = "ANSWER" :=
  (answer_two_part_prompt
    ⟨some (fun _ => Except.ok (LLMResponse.withContent "ANSWER")),
     some (fun _ => Except.ok [⟨"ctx", "profile"⟩])⟩
    (fun _ => Except.ok [⟨"ctx", "profile"⟩])
    (fun _ => Except.ok (LLMResponse.withContent "ANSWER"))
    "what" [⟨"ctx", "profile"⟩] rfl rfl rfl).trans rfl

/-- C8: after any startup, every chunk stored in the index, and every chunk
returned by the retriever (hence by any retrieval in generate_answer),
carries source metadata equal to "profile" or "cv.pdf", inherited from its
parent document through chunking, indexing and retrieval. -/
theorem retrieved_chunk_sources (env : Env) (r : Retriever) (q : String)
    (docs : List Document) (d : Document)
    (hd : d ∈ split_documents (loadDocuments env) ∨
          ((startup env).retriever = some r ∧ r q = Except.ok docs ∧ d ∈ docs)) :
    d.source = "profile" ∨ d.source = "cv.pdf" := by
  have hchunk : ∀ c : Document, c ∈ split_documents (loadDocuments env) →
      c.source = "profile" ∨ c.source = "cv.pdf" := by
    intro c hc
    obtain ⟨p, hp, hps⟩ := source_mem_split_documents (loadDocuments env) c hc
    rw [hps]
    exact source_mem_loadDocuments env p hp
  rcases hd with hd | ⟨hr, hq, hd⟩
  · exact hchunk d hd
  · cases hg : env.groqInit with
    | error e =>
        rw [show startup env = ⟨none, none⟩ by unfold startup load_resources; rw [hg]]
          at hr
        exact absurd hr (by simp)
    | ok f =>
      cases hi : env.indexBuild with
      | error e =>
          rw [show startup env = ⟨some f, none⟩ by
                unfold startup load_resources; rw [hg, hi]] at hr
          exact absurd hr (by simp)
      | ok dist =>
          have hrv : (startup env).retriever =
              some (fun qq => Except.ok (searchIndex
                (fun c => dist qq c.page_content)
                (split_documents (loadDocuments env)) TOP_K)) := by
            unfold startup load_resources
            rw [hg, hi]
          rw [hrv] at hr
          have hreq := Option.some.inj hr
          rw [← hreq] at hq
          have hdocs := (Except.ok.inj hq).symm
          rw [hdocs] at hd
          exact hchunk d (mem_searchIndex _ _ _ d hd)

set_option maxRecDepth 8000 in
/-- Witness for C8: with only the short profile document indexed, the chunk
retrieved for a query has source "profile" or "cv.pdf". -/
theorem retrieved_chunk_sources_witness :
    (⟨PERSONAL_PROFILE, "profile"⟩ : Document).source = "profile" ∨
    (⟨PERSONAL_PROFILE, "profile"⟩ : Document).source = "cv.pdf" :=
  retrieved_chunk_sources
    ⟨Except.ok (fun _ => Except.ok (LLMResponse.withContent "a")),
      false, Except.ok [], Except.ok (fun _ _ => 0)⟩
    (fun _ => Except.ok [⟨PERSONAL_PROFILE, "profile"⟩]) "skills"
    [⟨PERSONAL_PROFILE, "profile"⟩] ⟨PERSONAL_PROFILE, "profile"⟩
    (Or.inl (by decide))

end AskMehdi
